import Mathlib

/-!
Shallow embedding of the ai-rss-filter core: the incremental ingestion and
deduplication pipeline (`src/rss_processor.py`), the tiered cache
(`src/cache_manager.py`), the annotation layer (`src/filter_manager.py`,
`src/llm_integrator.py`) and the watermark store (`src/data_manager.py`).
Timestamps are modelled as `Int` seconds; Python `timedelta.days` is floor
division of the signed second difference by 86400.
-/

namespace AiRssFilter

/-- A feed entry as consumed by the pipeline: `title` and `link` with the
empty string standing for a missing/falsy field (Python `entry.get('title','')`),
and `published` the parsed publication time in seconds (`none` when
`published_parsed` is absent). -/
structure Entry where
  title : String
  link : String
  published : Option Int
  deriving DecidableEq, Repr

/-- Sort key used by `deduplicate_entries`:
`entry.get('published_parsed', datetime.now().timetuple())`, i.e. the
publication time, defaulting to the current time when absent. -/
def sortKey (now : Int) (e : Entry) : Int :=
  e.published.getD now

/-- `entries.sort(key=..., reverse=True)`: descending, stable order.
`sortRel now a b` holds when `a` may come no later than `b`. -/
def sortRel (now : Int) (a b : Entry) : Prop :=
  sortKey now b ≤ sortKey now a

instance (now : Int) : DecidableRel (sortRel now) :=
  fun a b => inferInstanceAs (Decidable (sortKey now b ≤ sortKey now a))

instance (now : Int) : IsTotal Entry (sortRel now) :=
  ⟨fun a b => le_total (sortKey now b) (sortKey now a)⟩

instance (now : Int) : IsTrans Entry (sortRel now) :=
  ⟨fun _ _ _ h1 h2 => le_trans h2 h1⟩

/-- The item participates in dedup only when both `title` and
`published_parsed` are truthy; returns the parsed time in that case
(`if not title or not published_parsed: keep unconditionally`). -/
def dedupKey (e : Entry) : Option Int :=
  if e.title = "" then none else e.published

/-- Python `timedelta.days` of `t - t0` seconds: floor division by 86400. -/
def tdDays (t t0 : Int) : Int :=
  (t - t0).fdiv 86400

/-- `abs((published_time - existing_time).days)` as an `Int`. -/
def absDays (t t0 : Int) : Int :=
  (tdDays t t0).natAbs

/-- `title_time_map` lookup: the most recently recorded time for a title. -/
def lookupTime (m : List (String × Int)) (k : String) : Option Int :=
  match m with
  | [] => none
  | (k', t) :: rest => if k' = k then some t else lookupTime rest k

/-- `title_time_map[title] = published_time`: record (shadowing earlier
bindings, which models dict assignment for lookup purposes). -/
def insertTime (m : List (String × Int)) (k : String) (t : Int) : List (String × Int) :=
  (k, t) :: m

/-- The single dedup pass of `deduplicate_entries` over the sorted list:
items lacking title or timestamp are kept; a first occurrence of a title is
kept and recorded; a repeat is kept (and re-recorded) only when the recorded
time differs by strictly more than `days` days, else dropped with the map
unchanged. -/
def dedupPass (days : Int) (m : List (String × Int)) : List Entry → List Entry
  | [] => []
  | e :: rest =>
    match dedupKey e with
    | none => e :: dedupPass days m rest
    | some t =>
      match lookupTime m e.title with
      | none => e :: dedupPass days (insertTime m e.title t) rest
      | some t0 =>
        if absDays t t0 > days then
          e :: dedupPass days (insertTime m e.title t) rest
        else
          dedupPass days m rest

/-- `RSSProcessor.deduplicate_entries(entries, days)`: lists shorter than 2
are returned unchanged; otherwise sort descending by publication time (with
`now` as the default key for missing timestamps) and run the dedup pass with
an empty title map. -/
def deduplicate_entries (now : Int) (entries : List Entry) (days : Int) : List Entry :=
  if entries.length < 2 then entries
  else dedupPass days [] (List.insertionSort (sortRel now) entries)

/-- The incremental filter of `RSSProcessor.process_group` (applied per
source when a watermark exists): keep items with no parsable timestamp, and
items published strictly after `last_update`. -/
def filterNewList (lastUpdate : Int) (entries : List Entry) : List Entry :=
  entries.filter fun e =>
    match e.published with
    | none => true
    | some t => lastUpdate < t

theorem dedupPass_replay (days : Int) (l : List Entry) :
    ∀ m, dedupPass days m (dedupPass days m l) = dedupPass days m l := by
  induction l with
  | nil => intro m; rfl
  | cons e rest ih =>
    intro m
    cases hk : dedupKey e with
    | none =>
      simp only [dedupPass, hk]
      rw [ih m]
    | some t =>
      cases hl : lookupTime m e.title with
      | none =>
        simp only [dedupPass, hk, hl]
        rw [ih (insertTime m e.title t)]
      | some t0 =>
        by_cases hgt : absDays t t0 > days
        · simp only [dedupPass, hk, hl, if_pos hgt]
          rw [ih (insertTime m e.title t)]
        · simp only [dedupPass, hk, hl, if_neg hgt]
          exact ih m

theorem dedupPass_sublist (days : Int) (l : List Entry) :
    ∀ m, List.Sublist (dedupPass days m l) l := by
  induction l with
  | nil => intro m; exact List.Sublist.refl _
  | cons e rest ih =>
    intro m
    cases hk : dedupKey e with
    | none =>
      simp only [dedupPass, hk]
      exact (ih m).cons₂ e
    | some t =>
      cases hl : lookupTime m e.title with
      | none =>
        simp only [dedupPass, hk, hl]
        exact (ih _).cons₂ e
      | some t0 =>
        by_cases hgt : absDays t t0 > days
        · simp only [dedupPass, hk, hl, if_pos hgt]
          exact (ih _).cons₂ e
        · simp only [dedupPass, hk, hl, if_neg hgt]
          exact (ih m).cons e

theorem dedupPass_mem_of_unkeyed (days : Int) (l : List Entry) :
    ∀ m (e : Entry), e ∈ l → dedupKey e = none → e ∈ dedupPass days m l := by
  induction l with
  | nil => intro m e he _; cases he
  | cons f rest ih =>
    intro m e he hkey
    rcases List.mem_cons.mp he with heq | hmem
    · subst heq
      simp only [dedupPass, hkey]
      exact List.mem_cons_self _ _
    · cases hk : dedupKey f with
      | none =>
        simp only [dedupPass, hk]
        exact List.mem_cons_of_mem _ (ih m e hmem hkey)
      | some t =>
        cases hl : lookupTime m f.title with
        | none =>
          simp only [dedupPass, hk, hl]
          exact List.mem_cons_of_mem _ (ih _ e hmem hkey)
        | some t0 =>
          by_cases hgt : absDays t t0 > days
          · simp only [dedupPass, hk, hl, if_pos hgt]
            exact List.mem_cons_of_mem _ (ih _ e hmem hkey)
          · simp only [dedupPass, hk, hl, if_neg hgt]
            exact ih m e hmem hkey

theorem deduplicate_entries_sorted (now days : Int) (l : List Entry) :
    List.Sorted (sortRel now) (deduplicate_entries now l days) := by
  unfold deduplicate_entries
  by_cases h1 : l.length < 2
  · simp only [if_pos h1]
    match l with
    | [] => exact List.sorted_nil
    | [a] => exact List.sorted_singleton a
    | a :: b :: tl => exact absurd h1 (by simp)
  · simp only [if_neg h1]
    exact List.Pairwise.sublist (dedupPass_sublist days _ [])
      (List.sorted_insertionSort (sortRel now) l)

theorem absDays_le_of_window {t1 t2 days : Int} (h1 : t1 < t2)
    (h2 : t2 - t1 ≤ days * 86400) : ¬ absDays t1 t2 > days := by
  unfold absDays tdDays
  rw [Int.fdiv_eq_ediv _ (by norm_num)]
  omega

theorem absDays_gt_of_window {t1 t2 days : Int} (h1 : t1 < t2)
    (h2 : days * 86400 < t2 - t1) : absDays t1 t2 > days := by
  unfold absDays tdDays
  rw [Int.fdiv_eq_ediv _ (by norm_num)]
  omega

/-- C7: deduplicate_entries is idempotent: running it twice with the same
window (and the same current time for default sort keys) gives the same
result as running it once, for every input list. -/
theorem deduplicate_entries_idempotent (now days : Int) (l : List Entry) :
    deduplicate_entries now (deduplicate_entries now l days) days
      = deduplicate_entries now l days := by
  by_cases h1 : l.length < 2
  · unfold deduplicate_entries
    simp [h1]
  · have hY : deduplicate_entries now l days
        = dedupPass days [] (List.insertionSort (sortRel now) l) := by
      unfold deduplicate_entries
      simp [h1]
    rw [hY]
    by_cases h2 : (dedupPass days [] (List.insertionSort (sortRel now) l)).length < 2
    · unfold deduplicate_entries
      simp [h2]
    · unfold deduplicate_entries
      simp only [if_neg h2]
      have hs : List.Sorted (sortRel now)
          (dedupPass days [] (List.insertionSort (sortRel now) l)) :=
        List.Pairwise.sublist (dedupPass_sublist days _ [])
          (List.sorted_insertionSort (sortRel now) l)
      rw [List.Sorted.insertionSort_eq hs]
      exact dedupPass_replay days _ []

/-- C2 (counterexample): the pairwise reading of the dedup window is false.
With window 3 days and three same-titled items at day 0, day 2 and day 4,
the items at day 0 and day 2 differ by 2 days (within the window), yet the
output keeps the earlier one (day 0) and drops the later one (day 2),
because the day-2 item is compared against the retained day-4 item. -/
theorem dedup_pairwise_window_counterexample :
    deduplicate_entries 1000000000
        [⟨"A", "", some 0⟩, ⟨"A", "", some 172800⟩, ⟨"A", "", some 345600⟩] 3
      = [⟨"A", "", some 345600⟩, ⟨"A", "", some 0⟩] ∧
    (⟨"A", "", some 0⟩ : Entry) ∈ deduplicate_entries 1000000000
        [⟨"A", "", some 0⟩, ⟨"A", "", some 172800⟩, ⟨"A", "", some 345600⟩] 3 ∧
    (⟨"A", "", some 172800⟩ : Entry) ∉ deduplicate_entries 1000000000
        [⟨"A", "", some 0⟩, ⟨"A", "", some 172800⟩, ⟨"A", "", some 345600⟩] 3 ∧
    ¬ absDays 0 172800 > 3 := by
  decide

/-- C2 (amended): for a two-item input of same-titled items with parsable
timestamps, if the publication times differ by at most `days` days the later
item alone is kept; if they differ by more, both are kept (later first). In
longer lists each item is compared against the most recently retained item
of the same title, not pairwise. -/
theorem dedup_pair_window (now days t1 t2 : Int) (ti l1 l2 : String)
    (htitle : ¬ ti = "") (hlt : t1 < t2) :
    (t2 - t1 ≤ days * 86400 →
      deduplicate_entries now [⟨ti, l1, some t1⟩, ⟨ti, l2, some t2⟩] days
        = [⟨ti, l2, some t2⟩]) ∧
    (days * 86400 < t2 - t1 →
      deduplicate_entries now [⟨ti, l1, some t1⟩, ⟨ti, l2, some t2⟩] days
        = [⟨ti, l2, some t2⟩, ⟨ti, l1, some t1⟩]) := by
  have hr : ¬ sortRel now (⟨ti, l1, some t1⟩ : Entry) ⟨ti, l2, some t2⟩ := by
    simp only [sortRel, sortKey, Option.getD]
    omega
  have hsort : List.insertionSort (sortRel now)
      [(⟨ti, l1, some t1⟩ : Entry), ⟨ti, l2, some t2⟩]
        = [⟨ti, l2, some t2⟩, ⟨ti, l1, some t1⟩] := by
    simp only [List.insertionSort, List.orderedInsert, if_neg hr]
  have hlk0 : ∀ k, lookupTime [] k = none := fun _ => rfl
  have hlk1 : ∀ m k t, lookupTime (insertTime m k t) k = some t := by
    intro m k t
    simp [lookupTime, insertTime]
  constructor <;> intro hwin
  · unfold deduplicate_entries
    rw [if_neg (by simp)]
    rw [hsort]
    simp only [dedupPass, dedupKey, if_neg htitle, hlk0, hlk1,
      if_neg (absDays_le_of_window hlt hwin)]
  · unfold deduplicate_entries
    rw [if_neg (by simp)]
    rw [hsort]
    simp only [dedupPass, dedupKey, if_neg htitle, hlk0, hlk1,
      if_pos (absDays_gt_of_window hlt hwin)]

/-- C2 (witness): the spec's own examples: items titled "A" at day 0 and
day 2 collapse to the later item with window 3 and stay distinct with
window 1. -/
theorem dedup_pair_window_witness :
    deduplicate_entries 7777 [⟨"A", "x", some 0⟩, ⟨"A", "y", some 172800⟩] 3
      = [⟨"A", "y", some 172800⟩] ∧
    deduplicate_entries 7777 [⟨"A", "x", some 0⟩, ⟨"A", "y", some 172800⟩] 1
      = [⟨"A", "y", some 172800⟩, ⟨"A", "x", some 0⟩] :=
  ⟨(dedup_pair_window 7777 3 0 172800 "A" "x" "y" (by decide) (by decide)).1 (by decide),
   (dedup_pair_window 7777 1 0 172800 "A" "x" "y" (by decide) (by decide)).2 (by decide)⟩

theorem deduplicate_entries_subset (now days : Int) (l : List Entry) :
    ∀ e, e ∈ deduplicate_entries now l days → e ∈ l := by
  intro e he
  unfold deduplicate_entries at he
  by_cases h1 : l.length < 2
  · simpa [h1] using he
  · simp only [if_neg h1] at he
    exact (List.mem_insertionSort _).mp ((dedupPass_sublist days _ []).subset he)

/-- C6 (amended): deduplicate_entries sorts its input by published_at
descending, with items lacking a timestamp keyed as the current time — hence
they sort before (not after) every item published strictly in the past — and
every item missing a title or a parsable published timestamp is always
retained in the output. -/
theorem dedup_sort_default_and_retention (now days : Int) (l : List Entry) :
    List.Sorted (sortRel now) (deduplicate_entries now l days) ∧
    (∀ e ∈ l, dedupKey e = none → e ∈ deduplicate_entries now l days) ∧
    (∀ e : Entry, e.published = none → sortKey now e = now) := by
  refine ⟨deduplicate_entries_sorted now days l, ?_, fun e h => by simp [sortKey, h]⟩
  intro e he hkey
  unfold deduplicate_entries
  by_cases h1 : l.length < 2
  · simp only [if_pos h1]
    exact he
  · simp only [if_neg h1]
    exact dedupPass_mem_of_unkeyed days _ [] e ((List.mem_insertionSort _).mpr he) hkey

/-- C6 (witness): the timestamp-less item "B" is retained. -/
theorem dedup_sort_default_and_retention_witness :
    (⟨"B", "", none⟩ : Entry)
      ∈ deduplicate_entries 1000 [⟨"A", "", some 100⟩, ⟨"B", "", none⟩] 3 :=
  (dedup_sort_default_and_retention 1000 3
    [⟨"A", "", some 100⟩, ⟨"B", "", none⟩]).2.1 ⟨"B", "", none⟩ (by decide) (by decide)

/-- C6 (counterexample): with the current time later than every published
item, an item lacking a timestamp receives the current time as its sort key
and therefore sorts first in the descending output, not last. -/
theorem dedup_missing_timestamp_sorts_first :
    deduplicate_entries 1000 [⟨"A", "", some 100⟩, ⟨"B", "", none⟩] 3
      = [⟨"B", "", none⟩, ⟨"A", "", some 100⟩] ∧
    ([(⟨"B", "", none⟩ : Entry), ⟨"A", "", some 100⟩]
      ≠ [(⟨"A", "", some 100⟩ : Entry), ⟨"B", "", none⟩]) := by
  decide

/-- C3: with an existing watermark W, the incremental filter excludes every
item whose parsable published time is at most W (and it stays excluded from
the deduplicated surviving set), keeps every item published strictly after
W, and keeps every item with no parsable timestamp unconditionally. -/
theorem incremental_filter_watermark (W now days : Int) (entries : List Entry) (e : Entry) :
    (∀ t, e.published = some t → t ≤ W →
      e ∉ filterNewList W entries ∧
      e ∉ deduplicate_entries now (filterNewList W entries) days) ∧
    (e ∈ entries → ∀ t, e.published = some t → W < t → e ∈ filterNewList W entries) ∧
    (e ∈ entries → e.published = none → e ∈ filterNewList W entries) := by
  refine ⟨fun t ht hle => ?_, fun he t ht hgt => ?_, fun he ht => ?_⟩
  · have hout : e ∉ filterNewList W entries := by
      intro hin
      have := (List.mem_filter.mp hin).2
      rw [ht] at this
      simp only [decide_eq_true_eq] at this
      omega
    exact ⟨hout, fun hin => hout (deduplicate_entries_subset now days _ e hin)⟩
  · refine List.mem_filter.mpr ⟨he, ?_⟩
    rw [ht]
    simpa using hgt
  · refine List.mem_filter.mpr ⟨he, ?_⟩
    rw [ht]

/-- C3 (witness): with watermark 100, the item at time 50 is excluded, the
item at time 150 passes, and the timestamp-less item survives. -/
theorem incremental_filter_watermark_witness :
    (⟨"A", "", some 50⟩ : Entry)
      ∉ filterNewList 100 [⟨"A", "", some 50⟩, ⟨"B", "", some 150⟩, ⟨"C", "", none⟩] ∧
    (⟨"B", "", some 150⟩ : Entry)
      ∈ filterNewList 100 [⟨"A", "", some 50⟩, ⟨"B", "", some 150⟩, ⟨"C", "", none⟩] ∧
    (⟨"C", "", none⟩ : Entry)
      ∈ filterNewList 100 [⟨"A", "", some 50⟩, ⟨"B", "", some 150⟩, ⟨"C", "", none⟩] :=
  ⟨((incremental_filter_watermark 100 999 3
      [⟨"A", "", some 50⟩, ⟨"B", "", some 150⟩, ⟨"C", "", none⟩]
      ⟨"A", "", some 50⟩).1 50 rfl (by decide)).1,
   (incremental_filter_watermark 100 999 3
      [⟨"A", "", some 50⟩, ⟨"B", "", some 150⟩, ⟨"C", "", none⟩]
      ⟨"B", "", some 150⟩).2.1 (by decide) 150 rfl (by decide),
   (incremental_filter_watermark 100 999 3
      [⟨"A", "", some 50⟩, ⟨"B", "", some 150⟩, ⟨"C", "", none⟩]
      ⟨"C", "", none⟩).2.2 (by decide) rfl⟩

/-- One run environment for `RSSProcessor.process_group`: the group
configuration and the external collaborators as seen by one invocation.
`feeds` holds one element per configured source URL, `none` when the fetch
fails for that source; `annotate` is `FilterManager.batch_process_entries`
(the LLM-backed boundary); `generateOk` is whether `generate_rss` succeeds. -/
structure RunEnv where
  groupExists : Bool
  feeds : List (Option (List Entry))
  dedupEnabled : Bool
  dedupDays : Int
  annotate : List Entry → List Entry
  generateOk : Bool

/-- Entry gathering of `process_group`: failed sources are skipped, and when
a watermark exists the incremental filter is applied per source before the
entries are accumulated. -/
def gatherEntries (w : Option Int) (feeds : List (Option (List Entry))) : List Entry :=
  feeds.foldl
    (fun acc f =>
      match f with
      | none => acc
      | some es =>
        acc ++ (match w with
          | some lu => filterNewList lu es
          | none => es))
    []

/-- `RSSProcessor.process_group`: returns the run's success flag and the
group's watermark after the run (`none` = no watermark row yet). Mirrors the
code order: config checks, fetch plus incremental filter, dedup, annotation,
persist, watermark update, then `generate_rss`. -/
def processGroup (env : RunEnv) (now : Int) (w : Option Int) : Bool × Option Int :=
  if env.groupExists then
    if env.feeds.isEmpty then (false, w)
    else
      let all := gatherEntries w env.feeds
      if all.isEmpty then (false, w)
      else
        let deduped :=
          if env.dedupEnabled then deduplicate_entries now all env.dedupDays else all
        let processed := env.annotate deduped
        if processed.isEmpty then (false, w)
        else (env.generateOk, some now)
  else (false, w)

/-- Whether the run reaches the persistence step: the group exists, it has
source URLs, the gathered incremental entries are nonempty and the annotated
set is nonempty. -/
def reachesPersist (env : RunEnv) (now : Int) (w : Option Int) : Bool :=
  env.groupExists
    && !env.feeds.isEmpty
    && !(gatherEntries w env.feeds).isEmpty
    && !(env.annotate
          (if env.dedupEnabled then
            deduplicate_entries now (gatherEntries w env.feeds) env.dedupDays
          else gatherEntries w env.feeds)).isEmpty

/-- C1 (amended): the watermark is updated after persisting and before
publishing, not after a fully successful cycle: every failure before the
persistence step leaves it unchanged, but once the run reaches persistence
the watermark advances to the current time even when `generate_rss` fails;
a run reports success exactly when it reaches persistence and publishing
succeeds, and a successful run always ends with watermark = now. -/
theorem processGroup_watermark_characterization (env : RunEnv) (now : Int) (w : Option Int) :
    (processGroup env now w).2 = (if reachesPersist env now w then some now else w) ∧
    (processGroup env now w).1 = (reachesPersist env now w && env.generateOk) := by
  unfold processGroup reachesPersist
  by_cases hg : env.groupExists
  · by_cases hf : env.feeds.isEmpty
    · simp [hg, hf]
    · by_cases ha : (gatherEntries w env.feeds).isEmpty
      · simp [hg, hf, ha]
      · by_cases hp : (env.annotate
            (if env.dedupEnabled then
              deduplicate_entries now (gatherEntries w env.feeds) env.dedupDays
            else gatherEntries w env.feeds)).isEmpty
        · simp [hg, hf, ha, hp]
        · simp [hg, hf, ha, hp]
  · simp [hg]

/-- C1 (counterexample): a run that fails in the publishing step still
advances the watermark, because `process_group` calls
`update_last_update_time` before `generate_rss`: here the run reports
failure yet the watermark moved from `none` to `some 42`. -/
theorem processGroup_publish_failure_advances_watermark :
    processGroup ⟨true, [some [⟨"A", "x", none⟩]], false, 3, id, false⟩ 42 none
      = (false, some 42) ∧ (some 42 : Option Int) ≠ none := by
  decide

/-- Association store backing one cache tier: key, value and the tier's
freshness metadata (`expires_at` for the memory tier, the content
modification time for the file tier, `created_at` for the database tier). -/
abbrev Store (α : Type) := List (String × α × Int)

def lookupStore {α : Type} (s : Store α) (k : String) : Option (α × Int) :=
  match s with
  | [] => none
  | (k', v, t) :: rest => if k' = k then some (v, t) else lookupStore rest k

def eraseStore {α : Type} (s : Store α) (k : String) : Store α :=
  match s with
  | [] => []
  | (k', v, t) :: rest =>
    if k' = k then eraseStore rest k else (k', v, t) :: eraseStore rest k

def insertStore {α : Type} (s : Store α) (k : String) (v : α) (t : Int) : Store α :=
  (k, v, t) :: eraseStore s k

/-- `MemoryCache.get`: a stored entry is served until `now > expires_at`;
an expired entry is deleted and reported absent. -/
def memGet {α : Type} (now : Int) (s : Store α) (k : String) : Option α × Store α :=
  match lookupStore s k with
  | none => (none, s)
  | some (v, exp) => if now > exp then (none, eraseStore s k) else (some v, s)

/-- `MemoryCache.set`: stores the value with `expires_at = now + ttl`, the
per-call ttl defaulting to the tier's own ttl. -/
def memSet {α : Type} (defaultTtl now : Int) (ttl : Option Int) (s : Store α)
    (k : String) (v : α) : Store α :=
  insertStore s k v (now + ttl.getD defaultTtl)

/-- `FileCache.get`: freshness is judged from the file's modification time;
an entry older than the tier ttl is unlinked and reported absent. -/
def fileGet {α : Type} (ttl now : Int) (s : Store α) (k : String) : Option α × Store α :=
  match lookupStore s k with
  | none => (none, s)
  | some (v, mtime) => if now - mtime > ttl then (none, eraseStore s k) else (some v, s)

/-- `FileCache.set`: writes the file, making its modification time `now`.
The function accepts a per-call ttl argument in the source but never reads
it, so the model takes none. -/
def fileSet {α : Type} (now : Int) (s : Store α) (k : String) (v : α) : Store α :=
  insertStore s k v now

/-- `DatabaseCache.get`: freshness is judged from the persisted
`created_at`; an entry older than the tier ttl is deleted and reported
absent. -/
def dbGet {α : Type} (ttl now : Int) (s : Store α) (k : String) : Option α × Store α :=
  match lookupStore s k with
  | none => (none, s)
  | some (v, created) => if now - created > ttl then (none, eraseStore s k) else (some v, s)

/-- `DatabaseCache.set`: INSERT OR REPLACE with `created_at = now`. As in
`FileCache.set`, the per-call ttl parameter of the source is unused. -/
def dbSet {α : Type} (now : Int) (s : Store α) (k : String) (v : α) : Store α :=
  insertStore s k v now

/-- The three tier switches and per-tier default ttls of `CacheManager`. -/
structure CacheConfig where
  memoryEnabled : Bool
  fileEnabled : Bool
  dbEnabled : Bool
  memoryTtl : Int
  fileTtl : Int
  dbTtl : Int
  deriving DecidableEq, Repr

/-- The three tier stores of one `CacheManager`. -/
structure CMState (α : Type) where
  mem : Store α
  file : Store α
  db : Store α
  deriving DecidableEq, Repr

inductive CacheTier where
  | memory
  | file
  | db
  deriving DecidableEq, Repr

/-- `CacheManager.get`: with a `cache_type` only that tier is consulted (a
disabled tier yields absent); otherwise tiers are probed memory → file → db,
and a hit at a slower tier backfills every faster enabled tier (memory with
its own default ttl, file by rewriting the file so its modification time
becomes `now`) before returning. The third component lists the tiers whose
backing store was actually queried. -/
def cmGet {α : Type} (cfg : CacheConfig) (now : Int) (st : CMState α) (k : String)
    (cacheType : Option CacheTier) : Option α × CMState α × List CacheTier :=
  match cacheType with
  | some CacheTier.memory =>
    if cfg.memoryEnabled then
      let r := memGet now st.mem k
      (r.1, { st with mem := r.2 }, [CacheTier.memory])
    else (none, st, [])
  | some CacheTier.file =>
    if cfg.fileEnabled then
      let r := fileGet cfg.fileTtl now st.file k
      (r.1, { st with file := r.2 }, [CacheTier.file])
    else (none, st, [])
  | some CacheTier.db =>
    if cfg.dbEnabled then
      let r := dbGet cfg.dbTtl now st.db k
      (r.1, { st with db := r.2 }, [CacheTier.db])
    else (none, st, [])
  | none =>
    let m := if cfg.memoryEnabled then memGet now st.mem k else (none, st.mem)
    let probedM : List CacheTier := if cfg.memoryEnabled then [CacheTier.memory] else []
    match m with
    | (some v, mem1) => (some v, { st with mem := mem1 }, probedM)
    | (none, mem1) =>
      let f := if cfg.fileEnabled then fileGet cfg.fileTtl now st.file k else (none, st.file)
      let probedF := probedM ++ (if cfg.fileEnabled then [CacheTier.file] else [])
      match f with
      | (some v, file1) =>
        let mem2 := if cfg.memoryEnabled then memSet cfg.memoryTtl now none mem1 k v else mem1
        (some v, { st with mem := mem2, file := file1 }, probedF)
      | (none, file1) =>
        let d := if cfg.dbEnabled then dbGet cfg.dbTtl now st.db k else (none, st.db)
        let probedD := probedF ++ (if cfg.dbEnabled then [CacheTier.db] else [])
        match d with
        | (some v, db1) =>
          let mem2 := if cfg.memoryEnabled then memSet cfg.memoryTtl now none mem1 k v else mem1
          let file2 := if cfg.fileEnabled then fileSet now file1 k v else file1
          (some v, { st with mem := mem2, file := file2, db := db1 }, probedD)
        | (none, db1) => (none, { st with mem := mem1, file := file1, db := db1 }, probedD)

/-- `CacheManager.set`: with a `cache_type` only that tier is written (false
when it is disabled); otherwise write-through to every enabled tier. Only
the memory tier honours the per-call ttl, mirroring the source. -/
def cmSet {α : Type} (cfg : CacheConfig) (now : Int) (st : CMState α) (k : String)
    (v : α) (ttl : Option Int) (cacheType : Option CacheTier) : Bool × CMState α :=
  match cacheType with
  | some CacheTier.memory =>
    if cfg.memoryEnabled then
      (true, { st with mem := memSet cfg.memoryTtl now ttl st.mem k v })
    else (false, st)
  | some CacheTier.file =>
    if cfg.fileEnabled then (true, { st with file := fileSet now st.file k v })
    else (false, st)
  | some CacheTier.db =>
    if cfg.dbEnabled then (true, { st with db := dbSet now st.db k v })
    else (false, st)
  | none =>
    let mem1 := if cfg.memoryEnabled then memSet cfg.memoryTtl now ttl st.mem k v else st.mem
    let file1 := if cfg.fileEnabled then fileSet now st.file k v else st.file
    let db1 := if cfg.dbEnabled then dbSet now st.db k v else st.db
    (true, { mem := mem1, file := file1, db := db1 })

theorem lookupStore_insert_self {α : Type} (s : Store α) (k : String) (v : α) (t : Int) :
    lookupStore (insertStore s k v t) k = some (v, t) := by
  simp [insertStore, lookupStore]

/-- C4: read-through with promotion: when the memory tier misses (absent or
expired) and a slower tier holds the key unexpired, `get` returns the value
and backfills every faster enabled tier — memory with its own default ttl,
file with a fresh modification time — before returning, so a second `get`
within the memory ttl is answered by the memory tier alone, with no query to
the file or database tier and no state change. -/
theorem cacheManager_get_promotes {α : Type} (cfg : CacheConfig) (st : CMState α)
    (k : String) (v : α) (t1 t2 mt : Int)
    (hmem : cfg.memoryEnabled = true) (hfile : cfg.fileEnabled = true)
    (hmiss : (memGet t1 st.mem k).1 = none)
    (hwin : t2 ≤ t1 + cfg.memoryTtl) :
    (lookupStore st.file k = some (v, mt) → t1 - mt ≤ cfg.fileTtl →
      (cmGet cfg t1 st k none).1 = some v ∧
      (cmGet cfg t1 st k none).2.2 = [CacheTier.memory, CacheTier.file] ∧
      lookupStore (cmGet cfg t1 st k none).2.1.mem k = some (v, t1 + cfg.memoryTtl) ∧
      (cmGet cfg t1 st k none).2.1.db = st.db ∧
      cmGet cfg t2 (cmGet cfg t1 st k none).2.1 k none
        = (some v, (cmGet cfg t1 st k none).2.1, [CacheTier.memory])) ∧
    (cfg.dbEnabled = true →
      (fileGet cfg.fileTtl t1 st.file k).1 = none →
      lookupStore st.db k = some (v, mt) → t1 - mt ≤ cfg.dbTtl →
      (cmGet cfg t1 st k none).1 = some v ∧
      (cmGet cfg t1 st k none).2.2 = [CacheTier.memory, CacheTier.file, CacheTier.db] ∧
      lookupStore (cmGet cfg t1 st k none).2.1.mem k = some (v, t1 + cfg.memoryTtl) ∧
      lookupStore (cmGet cfg t1 st k none).2.1.file k = some (v, t1) ∧
      cmGet cfg t2 (cmGet cfg t1 st k none).2.1 k none
        = (some v, (cmGet cfg t1 st k none).2.1, [CacheTier.memory])) := by
  rcases hmg : memGet t1 st.mem k with ⟨mv, mem1⟩
  rw [hmg] at hmiss
  simp only at hmiss
  subst hmiss
  have hm2 : ∀ s : Store α, memGet t2 (memSet cfg.memoryTtl t1 none s k v) k
      = (some v, memSet cfg.memoryTtl t1 none s k v) := by
    intro s
    simp only [memGet, memSet, lookupStore_insert_self, Option.getD_none]
    rw [if_neg (by omega)]
  constructor
  · intro hlk hfresh
    have hf : fileGet cfg.fileTtl t1 st.file k = (some v, st.file) := by
      simp only [fileGet, hlk]
      rw [if_neg (by omega)]
    refine ⟨?_, ?_, ?_, ?_, ?_⟩
    · simp only [cmGet, hmem, hfile, if_true, hmg, hf]
    · simp only [cmGet, hmem, hfile, if_true, hmg, hf]
      rfl
    · simp only [cmGet, hmem, hfile, if_true, hmg, hf, memSet, Option.getD_none,
        lookupStore_insert_self]
    · simp only [cmGet, hmem, hfile, if_true, hmg, hf]
    · simp only [cmGet, hmem, hfile, if_true, hmg, hf, hm2]
  · intro hdb hfm hlk hfresh
    rcases hfg : fileGet cfg.fileTtl t1 st.file k with ⟨fv, file1⟩
    rw [hfg] at hfm
    simp only at hfm
    subst hfm
    have hd : dbGet cfg.dbTtl t1 st.db k = (some v, st.db) := by
      simp only [dbGet, hlk]
      rw [if_neg (by omega)]
    refine ⟨?_, ?_, ?_, ?_, ?_⟩
    · simp only [cmGet, hmem, hfile, hdb, if_true, hmg, hfg, hd]
    · simp only [cmGet, hmem, hfile, hdb, if_true, hmg, hfg, hd]
      rfl
    · simp only [cmGet, hmem, hfile, hdb, if_true, hmg, hfg, hd, memSet, Option.getD_none,
        lookupStore_insert_self]
    · simp only [cmGet, hmem, hfile, hdb, if_true, hmg, hfg, hd, fileSet,
        lookupStore_insert_self]
    · simp only [cmGet, hmem, hfile, hdb, if_true, hmg, hfg, hd, hm2]

/-- C4 (witness): a cold memory tier and a warm file tier holding "k": the
first get promotes, the second is served by memory alone. -/
theorem cacheManager_get_promotes_witness :
    (cmGet ⟨true, true, true, 3600, 86400, 604800⟩ 10
        (⟨[], [("k", "v", 0)], []⟩ : CMState String) "k" none).1 = some "v" ∧
    cmGet ⟨true, true, true, 3600, 86400, 604800⟩ 20
        (cmGet ⟨true, true, true, 3600, 86400, 604800⟩ 10
          (⟨[], [("k", "v", 0)], []⟩ : CMState String) "k" none).2.1 "k" none
      = (some "v",
         (cmGet ⟨true, true, true, 3600, 86400, 604800⟩ 10
           (⟨[], [("k", "v", 0)], []⟩ : CMState String) "k" none).2.1,
         [CacheTier.memory]) := by
  have h := (cacheManager_get_promotes (α := String) ⟨true, true, true, 3600, 86400, 604800⟩
    ⟨[], [("k", "v", 0)], []⟩ "k" "v" 10 20 0 rfl rfl (by decide) (by decide)).1
    (by decide) (by decide)
  exact ⟨h.1, h.2.2.2.2⟩

/-- C5: with default tier ttls, a `set(K, V, ttl=1)` at time 0 followed by a
per-tier `get` at time 2 yields absent from the memory tier but still
returns the value from the file and database tiers: `FileCache.set` and
`DatabaseCache.set` accept the per-call ttl argument yet never use it, so
only the memory tier honours it, contradicting both their own docstrings
and the spec's expiry property. -/
theorem per_call_ttl_ignored_by_durable_tiers :
    (cmGet ⟨true, true, true, 3600, 86400, 604800⟩ 2
      (cmSet (α := String) ⟨true, true, true, 3600, 86400, 604800⟩ 0 ⟨[], [], []⟩
        "k" "v" (some 1) none).2
      "k" (some CacheTier.memory)).1 = none ∧
    (cmGet ⟨true, true, true, 3600, 86400, 604800⟩ 2
      (cmSet (α := String) ⟨true, true, true, 3600, 86400, 604800⟩ 0 ⟨[], [], []⟩
        "k" "v" (some 1) none).2
      "k" (some CacheTier.file)).1 = some "v" ∧
    (cmGet ⟨true, true, true, 3600, 86400, 604800⟩ 2
      (cmSet (α := String) ⟨true, true, true, 3600, 86400, 604800⟩ 0 ⟨[], [], []⟩
        "k" "v" (some 1) none).2
      "k" (some CacheTier.db)).1 = some "v" := by
  decide

/-- Values held by the cache in the annotation layer: `filter_entry` caches
booleans, `generate_summary` and `generate_text` cache strings. -/
inductive CVal where
  | b (val : Bool)
  | s (val : String)
  deriving DecidableEq, Repr

/-- Reading a cached value where Python expects a boolean: a cached bool is
returned as-is, a cached string follows Python truthiness. -/
def CVal.asBool : CVal → Bool
  | CVal.b v => v
  | CVal.s v => !(v == "")

/-- Reading a cached value where Python expects a string. -/
def CVal.asString : CVal → String
  | CVal.s v => v
  | CVal.b v => if v then "True" else "False"

def startsWithChars : List Char → List Char → Bool
  | _, [] => true
  | [], _ :: _ => false
  | c :: cs, d :: ds => c == d && startsWithChars cs ds

def containsChars (l sub : List Char) : Bool :=
  match l with
  | [] => sub.isEmpty
  | _ :: rest => startsWithChars l sub || containsChars rest sub

def toLowerStr (str : String) : String :=
  String.mk (str.data.map Char.toLower)

/-- Python `sub in s`. -/
def strContains (str sub : String) : Bool :=
  containsChars str.data sub.data

/-- `'是' in response.lower() or 'yes' in response.lower()`. -/
def parseYesNo (resp : String) : Bool :=
  strContains (toLowerStr resp) "是" || strContains (toLowerStr resp) "yes"

/-- The argument of the md5 call in `FilterManager._get_entry_hash`:
the unseparated concatenation of title and link. -/
def entryHashInput (e : Entry) : String :=
  e.title ++ e.link

/-- `FilterManager._get_entry_hash`: md5 of title concatenated with link.
The md5 digest itself is passed in as a function parameter. -/
def entryHash (md5 : String → String) (e : Entry) : String :=
  md5 (entryHashInput e)

def filterCacheKey (md5 : String → String) (group : String) (e : Entry) : String :=
  "filter:" ++ group ++ ":" ++ entryHash md5 e

def summaryCacheKey (md5 : String → String) (group : String) (e : Entry) : String :=
  "summary:" ++ group ++ ":" ++ entryHash md5 e

def llmCacheKey (md5 : String → String) (provider prompt : String) : String :=
  "llm:" ++ provider ++ ":" ++ md5 prompt

/-- The cache key of `RSSProcessor.fetch_rss`. -/
def fetchCacheKey (url : String) : String :=
  "rss:fetch:" ++ url

/-- `if not provider: provider = self.default_provider`. -/
def effectiveProvider (defaultProvider : String) (p : Option String) : String :=
  match p with
  | none => defaultProvider
  | some q => if q = "" then defaultProvider else q

/-- The filter prompt of `FilterManager.filter_entry` (template whitespace
condensed). -/
def buildFilterPrompt (prompt title link content : String) : String :=
  "请根据以下条件判断文章是否符合要求：\n" ++ prompt ++ "\n文章内容：\n标题：" ++ title
    ++ "\n链接：" ++ link ++ "\n内容：" ++ content
    ++ "\n请只回答“是”或“否”，表示是否保留该文章。"

/-- The summary prompt of `FilterManager.generate_summary` (template
whitespace condensed). -/
def buildSummaryPrompt (maxLength : Nat) (title link content : String) : String :=
  "请为以下文章生成一个简短的摘要，不超过" ++ toString maxLength ++ "个字：\n标题：" ++ title
    ++ "\n链接：" ++ link ++ "\n内容：" ++ content
    ++ "\n摘要要求：1. 简明扼要，突出文章核心内容 2. 不超过" ++ toString maxLength
    ++ "个字 3. 不要包含“以下是摘要”等无关文字"

/-- The configuration and external collaborators seen by the annotation
layer: the md5 digest, the group's filter/summary settings, the provider
environment of `LLMIntegrator` and the external text-generation capability
(`llmResult`, counted by the call counter threaded through the model).
`content` stands for `FilterManager._build_filter_content`, which
shape-sniffs entry fields outside this model. -/
structure AnnotEnv where
  md5 : String → String
  groupName : String
  groupExists : Bool
  filterEnabled : Bool
  filterPrompt : String
  filterProvider : Option String
  summaryEnabled : Bool
  summaryMaxLength : Nat
  summaryProvider : Option String
  defaultProvider : String
  apiKeyOk : String → Bool
  providerSupported : String → Bool
  llmResult : String → String → String
  content : Entry → String
  cfg : CacheConfig

/-- `LLMIntegrator.generate_text`: missing API key (for non-ollama
providers) returns an error string without calling or caching; otherwise
the `llm:<provider>:<md5 prompt>` cache is consulted; on a miss a supported
provider performs one external call (counter incremented) and the result is
cached write-through; an unsupported provider returns an error string
without calling. -/
def generateText (env : AnnotEnv) (now : Int) (st : CMState CVal) (calls : Nat)
    (prompt : String) (provider? : Option String) : String × CMState CVal × Nat :=
  let provider := effectiveProvider env.defaultProvider provider?
  if !(env.apiKeyOk provider) && !(provider == "ollama") then
    ("错误: API密钥未设置", st, calls)
  else
    let key := llmCacheKey env.md5 provider prompt
    match cmGet env.cfg now st key none with
    | (some cached, st1, _) => (CVal.asString cached, st1, calls)
    | (none, st1, _) =>
      if env.providerSupported provider then
        let result := env.llmResult prompt provider
        ((result, ((cmSet env.cfg now st1 key (CVal.s result) none none).2 : CMState CVal),
          calls + 1) : String × CMState CVal × Nat)
      else ("错误: 不支持的提供商", st1, calls)

/-- `FilterManager.filter_entry`: missing group, disabled filter or empty
filter prompt keep the entry without touching the cache; otherwise the
`filter:<group>:<hash>` cache is consulted, and on a miss the LLM verdict is
parsed with `parseYesNo` and cached write-through. -/
def filterEntry (env : AnnotEnv) (now : Int) (st : CMState CVal) (calls : Nat)
    (e : Entry) : Bool × CMState CVal × Nat :=
  if !env.groupExists then (true, st, calls)
  else if !env.filterEnabled then (true, st, calls)
  else if env.filterPrompt = "" then (true, st, calls)
  else
    let key := filterCacheKey env.md5 env.groupName e
    match cmGet env.cfg now st key none with
    | (some cached, st1, _) => (CVal.asBool cached, st1, calls)
    | (none, st1, _) =>
      let prompt := buildFilterPrompt env.filterPrompt e.title e.link (env.content e)
      let r := generateText env now st1 calls prompt env.filterProvider
      let result := parseYesNo r.1
      ((result, ((cmSet env.cfg now r.2.1 key (CVal.b result) none none).2 : CMState CVal),
        r.2.2) : Bool × CMState CVal × Nat)

/-- `FilterManager.generate_summary`: missing group or disabled summary
yields no summary without touching the cache; otherwise the
`summary:<group>:<hash>` cache is consulted, and on a miss the generated
text is cached write-through and returned. -/
def generateSummary (env : AnnotEnv) (now : Int) (st : CMState CVal) (calls : Nat)
    (e : Entry) : Option String × CMState CVal × Nat :=
  if !env.groupExists then (none, st, calls)
  else if !env.summaryEnabled then (none, st, calls)
  else
    let key := summaryCacheKey env.md5 env.groupName e
    match cmGet env.cfg now st key none with
    | (some cached, st1, _) => (some (CVal.asString cached), st1, calls)
    | (none, st1, _) =>
      let prompt := buildSummaryPrompt env.summaryMaxLength e.title e.link (env.content e)
      let r := generateText env now st1 calls prompt env.summaryProvider
      ((some r.1, ((cmSet env.cfg now r.2.1 key (CVal.s r.1) none none).2 : CMState CVal),
        r.2.2) : Option String × CMState CVal × Nat)

/-- `RSSProcessor.fetch_rss`: the `rss:fetch:<url>` cache is consulted; on a
miss, a successful live fetch is cached with ttl 3600, a failed one (bozo
or exception) reports failure. -/
def fetchRss (cfg : CacheConfig) (now : Int) (st : CMState CVal) (url : String)
    (fetchResult : Option CVal) : (Bool × Option CVal) × CMState CVal :=
  match cmGet cfg now st (fetchCacheKey url) none with
  | (some cached, st1, _) => ((true, some cached), st1)
  | (none, st1, _) =>
    match fetchResult with
    | none => ((false, none), st1)
    | some feed =>
      ((true, some feed), (cmSet cfg now st1 (fetchCacheKey url) feed (some 3600) none).2)

/-- Repeated invocations of `filter_entry` at the given times, threading the
cache state and the external-call counter. -/
def annotateFilterTimes (env : AnnotEnv) (e : Entry) :
    List Int → CMState CVal → Nat → CMState CVal × Nat
  | [], st, c => (st, c)
  | t :: ts, st, c =>
    let r := filterEntry env t st c e
    annotateFilterTimes env e ts r.2.1 r.2.2

theorem cmGet_miss {α : Type} (cfg : CacheConfig) (now : Int) (st : CMState α) (k : String)
    (h1 : lookupStore st.mem k = none) (h2 : lookupStore st.file k = none)
    (h3 : lookupStore st.db k = none) :
    (cmGet cfg now st k none).1 = none ∧ (cmGet cfg now st k none).2.1 = st := by
  by_cases hm : cfg.memoryEnabled <;> by_cases hf : cfg.fileEnabled <;>
    by_cases hd : cfg.dbEnabled <;>
      simp [cmGet, hm, hf, hd, memGet, fileGet, dbGet, h1, h2, h3]

theorem filterEntry_cached (env : AnnotEnv) (t : Int) (st : CMState CVal) (c : Nat)
    (e : Entry) (v : Bool) (exp : Int)
    (hge : env.groupExists = true) (hfe : env.filterEnabled = true)
    (hfp : ¬ env.filterPrompt = "") (hmem : env.cfg.memoryEnabled = true)
    (hlk : lookupStore st.mem (filterCacheKey env.md5 env.groupName e) = some (CVal.b v, exp))
    (hval : ¬ t > exp) :
    filterEntry env t st c e = (v, st, c) := by
  have hmg : memGet t st.mem (filterCacheKey env.md5 env.groupName e)
      = (some (CVal.b v), st.mem) := by
    simp only [memGet, hlk]
    rw [if_neg hval]
  unfold filterEntry
  simp only [hge, hfe, Bool.not_true, if_neg hfp, cmGet, hmem, if_true, hmg]
  rfl

theorem filterEntry_cold (env : AnnotEnv) (t1 : Int) (st : CMState CVal) (c : Nat) (e : Entry)
    (hge : env.groupExists = true) (hfe : env.filterEnabled = true)
    (hfp : ¬ env.filterPrompt = "") (hmem : env.cfg.memoryEnabled = true)
    (hapi : env.apiKeyOk (effectiveProvider env.defaultProvider env.filterProvider) = true)
    (hsup : env.providerSupported (effectiveProvider env.defaultProvider env.filterProvider) = true)
    (hc1 : lookupStore st.mem (filterCacheKey env.md5 env.groupName e) = none)
    (hc2 : lookupStore st.file (filterCacheKey env.md5 env.groupName e) = none)
    (hc3 : lookupStore st.db (filterCacheKey env.md5 env.groupName e) = none)
    (hl1 : lookupStore st.mem (llmCacheKey env.md5
      (effectiveProvider env.defaultProvider env.filterProvider)
      (buildFilterPrompt env.filterPrompt e.title e.link (env.content e))) = none)
    (hl2 : lookupStore st.file (llmCacheKey env.md5
      (effectiveProvider env.defaultProvider env.filterProvider)
      (buildFilterPrompt env.filterPrompt e.title e.link (env.content e))) = none)
    (hl3 : lookupStore st.db (llmCacheKey env.md5
      (effectiveProvider env.defaultProvider env.filterProvider)
      (buildFilterPrompt env.filterPrompt e.title e.link (env.content e))) = none) :
    (filterEntry env t1 st c e).2.2 = c + 1 ∧
    lookupStore (filterEntry env t1 st c e).2.1.mem
        (filterCacheKey env.md5 env.groupName e)
      = some (CVal.b (filterEntry env t1 st c e).1, t1 + env.cfg.memoryTtl) := by
  obtain ⟨hg1, hg2⟩ := cmGet_miss env.cfg t1 st _ hc1 hc2 hc3
  rcases hgg : cmGet env.cfg t1 st (filterCacheKey env.md5 env.groupName e) none
    with ⟨gv, gst, gp⟩
  rw [hgg] at hg1 hg2
  simp only at hg1 hg2
  rw [hg1, hg2] at hgg
  obtain ⟨hm1, hm2⟩ := cmGet_miss env.cfg t1 st _ hl1 hl2 hl3
  rcases hll : cmGet env.cfg t1 st (llmCacheKey env.md5
      (effectiveProvider env.defaultProvider env.filterProvider)
      (buildFilterPrompt env.filterPrompt e.title e.link (env.content e))) none
    with ⟨lv, lst, lp⟩
  rw [hll] at hm1 hm2
  simp only at hm1 hm2
  rw [hm1, hm2] at hll
  unfold filterEntry generateText
  simp only [hge, hfe, Bool.not_true, if_neg hfp, hgg, hapi, hsup, hll, Bool.false_and,
    Bool.not_false, if_true, if_false, Bool.and_false]
  simp only [cmSet, hmem, if_true, memSet, Option.getD_none, lookupStore_insert_self,
    and_self]
  simp [lookupStore_insert_self]

theorem annotateFilterTimes_stable (env : AnnotEnv) (e : Entry) (v : Bool)
    (st : CMState CVal) (exp : Int)
    (hge : env.groupExists = true) (hfe : env.filterEnabled = true)
    (hfp : ¬ env.filterPrompt = "") (hmem : env.cfg.memoryEnabled = true)
    (hlk : lookupStore st.mem (filterCacheKey env.md5 env.groupName e)
      = some (CVal.b v, exp)) :
    ∀ (ts : List Int), (∀ t ∈ ts, ¬ t > exp) → ∀ c,
      annotateFilterTimes env e ts st c = (st, c) := by
  intro ts
  induction ts with
  | nil => intro _ c; rfl
  | cons t ts ih =>
    intro hts c
    have h1 := filterEntry_cached env t st c e v exp hge hfe hfp hmem hlk
      (hts t (List.mem_cons_self t ts))
    simp only [annotateFilterTimes, h1]
    exact ih (fun u hu => hts u (List.mem_cons_of_mem t hu)) c

theorem generateSummary_cached (env : AnnotEnv) (t : Int) (st : CMState CVal) (c : Nat)
    (e : Entry) (v : String) (exp : Int)
    (hge : env.groupExists = true) (hse : env.summaryEnabled = true)
    (hmem : env.cfg.memoryEnabled = true)
    (hlk : lookupStore st.mem (summaryCacheKey env.md5 env.groupName e)
      = some (CVal.s v, exp))
    (hval : ¬ t > exp) :
    generateSummary env t st c e = (some v, st, c) := by
  have hmg : memGet t st.mem (summaryCacheKey env.md5 env.groupName e)
      = (some (CVal.s v), st.mem) := by
    simp only [memGet, hlk]
    rw [if_neg hval]
  unfold generateSummary
  simp only [hge, hse, Bool.not_true, cmGet, hmem, if_true, hmg]
  rfl

theorem generateSummary_cold (env : AnnotEnv) (t1 : Int) (st : CMState CVal) (c : Nat)
    (e : Entry)
    (hge : env.groupExists = true) (hse : env.summaryEnabled = true)
    (hmem : env.cfg.memoryEnabled = true)
    (hapi : env.apiKeyOk (effectiveProvider env.defaultProvider env.summaryProvider) = true)
    (hsup : env.providerSupported
      (effectiveProvider env.defaultProvider env.summaryProvider) = true)
    (hc1 : lookupStore st.mem (summaryCacheKey env.md5 env.groupName e) = none)
    (hc2 : lookupStore st.file (summaryCacheKey env.md5 env.groupName e) = none)
    (hc3 : lookupStore st.db (summaryCacheKey env.md5 env.groupName e) = none)
    (hl1 : lookupStore st.mem (llmCacheKey env.md5
      (effectiveProvider env.defaultProvider env.summaryProvider)
      (buildSummaryPrompt env.summaryMaxLength e.title e.link (env.content e))) = none)
    (hl2 : lookupStore st.file (llmCacheKey env.md5
      (effectiveProvider env.defaultProvider env.summaryProvider)
      (buildSummaryPrompt env.summaryMaxLength e.title e.link (env.content e))) = none)
    (hl3 : lookupStore st.db (llmCacheKey env.md5
      (effectiveProvider env.defaultProvider env.summaryProvider)
      (buildSummaryPrompt env.summaryMaxLength e.title e.link (env.content e))) = none) :
    (generateSummary env t1 st c e).2.2 = c + 1 ∧
    (generateSummary env t1 st c e).1
      = some (env.llmResult
          (buildSummaryPrompt env.summaryMaxLength e.title e.link (env.content e))
          (effectiveProvider env.defaultProvider env.summaryProvider)) ∧
    lookupStore (generateSummary env t1 st c e).2.1.mem
        (summaryCacheKey env.md5 env.groupName e)
      = some (CVal.s (env.llmResult
          (buildSummaryPrompt env.summaryMaxLength e.title e.link (env.content e))
          (effectiveProvider env.defaultProvider env.summaryProvider)),
        t1 + env.cfg.memoryTtl) := by
  obtain ⟨hg1, hg2⟩ := cmGet_miss env.cfg t1 st _ hc1 hc2 hc3
  rcases hgg : cmGet env.cfg t1 st (summaryCacheKey env.md5 env.groupName e) none
    with ⟨gv, gst, gp⟩
  rw [hgg] at hg1 hg2
  simp only at hg1 hg2
  rw [hg1, hg2] at hgg
  obtain ⟨hm1, hm2⟩ := cmGet_miss env.cfg t1 st _ hl1 hl2 hl3
  rcases hll : cmGet env.cfg t1 st (llmCacheKey env.md5
      (effectiveProvider env.defaultProvider env.summaryProvider)
      (buildSummaryPrompt env.summaryMaxLength e.title e.link (env.content e))) none
    with ⟨lv, lst, lp⟩
  rw [hll] at hm1 hm2
  simp only at hm1 hm2
  rw [hm1, hm2] at hll
  unfold generateSummary generateText
  simp only [hge, hse, Bool.not_true, hgg, hapi, hsup, hll, Bool.false_and,
    Bool.not_false, if_true, if_false, Bool.and_false]
  simp only [cmSet, hmem, if_true, memSet, Option.getD_none, lookupStore_insert_self,
    and_self]
  simp [lookupStore_insert_self]

/-- C8: for every item and group, once the annotation caches are cold for
the item, the first invocation of `filter_entry` (resp. `generate_summary`)
issues exactly one external text-generation call; every further invocation
within the memory-tier ttl is served from the `filter:`/`summary:` cache
with no further external call and no state change — so any number of
invocations within the ttl issues exactly one call per capability. -/
theorem annotation_at_most_one_llm_call (env : AnnotEnv) (t1 t2 : Int)
    (st : CMState CVal) (e : Entry)
    (hmem : env.cfg.memoryEnabled = true)
    (hwin : ¬ t2 > t1 + env.cfg.memoryTtl) :
    (env.groupExists = true → env.filterEnabled = true → ¬ env.filterPrompt = "" →
     env.apiKeyOk (effectiveProvider env.defaultProvider env.filterProvider) = true →
     env.providerSupported (effectiveProvider env.defaultProvider env.filterProvider) = true →
     lookupStore st.mem (filterCacheKey env.md5 env.groupName e) = none →
     lookupStore st.file (filterCacheKey env.md5 env.groupName e) = none →
     lookupStore st.db (filterCacheKey env.md5 env.groupName e) = none →
     lookupStore st.mem (llmCacheKey env.md5
       (effectiveProvider env.defaultProvider env.filterProvider)
       (buildFilterPrompt env.filterPrompt e.title e.link (env.content e))) = none →
     lookupStore st.file (llmCacheKey env.md5
       (effectiveProvider env.defaultProvider env.filterProvider)
       (buildFilterPrompt env.filterPrompt e.title e.link (env.content e))) = none →
     lookupStore st.db (llmCacheKey env.md5
       (effectiveProvider env.defaultProvider env.filterProvider)
       (buildFilterPrompt env.filterPrompt e.title e.link (env.content e))) = none →
       (filterEntry env t1 st 0 e).2.2 = 1 ∧
       filterEntry env t2 (filterEntry env t1 st 0 e).2.1 (filterEntry env t1 st 0 e).2.2 e
         = ((filterEntry env t1 st 0 e).1, (filterEntry env t1 st 0 e).2.1, 1) ∧
       (∀ (ts : List Int), (∀ t ∈ ts, ¬ t > t1 + env.cfg.memoryTtl) →
         annotateFilterTimes env e ts (filterEntry env t1 st 0 e).2.1 1
           = ((filterEntry env t1 st 0 e).2.1, 1))) ∧
    (env.groupExists = true → env.summaryEnabled = true →
     env.apiKeyOk (effectiveProvider env.defaultProvider env.summaryProvider) = true →
     env.providerSupported (effectiveProvider env.defaultProvider env.summaryProvider) = true →
     lookupStore st.mem (summaryCacheKey env.md5 env.groupName e) = none →
     lookupStore st.file (summaryCacheKey env.md5 env.groupName e) = none →
     lookupStore st.db (summaryCacheKey env.md5 env.groupName e) = none →
     lookupStore st.mem (llmCacheKey env.md5
       (effectiveProvider env.defaultProvider env.summaryProvider)
       (buildSummaryPrompt env.summaryMaxLength e.title e.link (env.content e))) = none →
     lookupStore st.file (llmCacheKey env.md5
       (effectiveProvider env.defaultProvider env.summaryProvider)
       (buildSummaryPrompt env.summaryMaxLength e.title e.link (env.content e))) = none →
     lookupStore st.db (llmCacheKey env.md5
       (effectiveProvider env.defaultProvider env.summaryProvider)
       (buildSummaryPrompt env.summaryMaxLength e.title e.link (env.content e))) = none →
       (generateSummary env t1 st 0 e).2.2 = 1 ∧
       generateSummary env t2 (generateSummary env t1 st 0 e).2.1
           (generateSummary env t1 st 0 e).2.2 e
         = ((generateSummary env t1 st 0 e).1, (generateSummary env t1 st 0 e).2.1, 1)) := by
  constructor
  · intro hge hfe hfp hapi hsup hc1 hc2 hc3 hl1 hl2 hl3
    obtain ⟨hcalls, hlook⟩ :=
      filterEntry_cold env t1 st 0 e hge hfe hfp hmem hapi hsup hc1 hc2 hc3 hl1 hl2 hl3
    refine ⟨hcalls, ?_, ?_⟩
    · rw [hcalls]
      exact filterEntry_cached env t2 _ 1 e (filterEntry env t1 st 0 e).1
        (t1 + env.cfg.memoryTtl) hge hfe hfp hmem hlook hwin
    · intro ts hts
      exact annotateFilterTimes_stable env e (filterEntry env t1 st 0 e).1 _
        (t1 + env.cfg.memoryTtl) hge hfe hfp hmem hlook ts hts 1
  · intro hge hse hapi hsup hc1 hc2 hc3 hl1 hl2 hl3
    obtain ⟨hcalls, hres, hlook⟩ :=
      generateSummary_cold env t1 st 0 e hge hse hmem hapi hsup hc1 hc2 hc3 hl1 hl2 hl3
    refine ⟨hcalls, ?_⟩
    rw [hcalls, hres]
    exact generateSummary_cached env t2 _ 1 e _ (t1 + env.cfg.memoryTtl)
      hge hse hmem hlook hwin

/-- A concrete annotation environment: identity digest, group "g", filter
and summary enabled, every provider configured, external generator answering
"是". -/
def demoEnv : AnnotEnv :=
  ⟨fun str => str, "g", true, true, "p", some "openai", true, 150, some "openai",
   "openai", fun _ => true, fun _ => true, fun _ _ => "是", fun _ => "",
   ⟨true, true, true, 3600, 86400, 604800⟩⟩

/-- C8 (witness): from a cold cache, filtering the same item twice issues
one external call, and so does summarising it twice. -/
theorem annotation_at_most_one_llm_call_witness :
    ((filterEntry demoEnv 0 ⟨[], [], []⟩ 0 ⟨"T", "L", none⟩).2.2 = 1 ∧
     filterEntry demoEnv 1 (filterEntry demoEnv 0 ⟨[], [], []⟩ 0 ⟨"T", "L", none⟩).2.1
         (filterEntry demoEnv 0 ⟨[], [], []⟩ 0 ⟨"T", "L", none⟩).2.2 ⟨"T", "L", none⟩
       = ((filterEntry demoEnv 0 ⟨[], [], []⟩ 0 ⟨"T", "L", none⟩).1,
          (filterEntry demoEnv 0 ⟨[], [], []⟩ 0 ⟨"T", "L", none⟩).2.1, 1)) ∧
    ((generateSummary demoEnv 0 ⟨[], [], []⟩ 0 ⟨"T", "L", none⟩).2.2 = 1 ∧
     generateSummary demoEnv 1 (generateSummary demoEnv 0 ⟨[], [], []⟩ 0 ⟨"T", "L", none⟩).2.1
         (generateSummary demoEnv 0 ⟨[], [], []⟩ 0 ⟨"T", "L", none⟩).2.2 ⟨"T", "L", none⟩
       = ((generateSummary demoEnv 0 ⟨[], [], []⟩ 0 ⟨"T", "L", none⟩).1,
          (generateSummary demoEnv 0 ⟨[], [], []⟩ 0 ⟨"T", "L", none⟩).2.1, 1)) := by
  have h := annotation_at_most_one_llm_call demoEnv 0 1 ⟨[], [], []⟩ ⟨"T", "L", none⟩
    rfl (by decide)
  have hf := h.1 rfl rfl (by decide) rfl rfl rfl rfl rfl rfl rfl rfl
  have hs := h.2 rfl rfl rfl rfl rfl rfl rfl rfl rfl rfl
  exact ⟨⟨hf.1, hf.2.1⟩, hs⟩

/-- C9 (counterexample): the feed-fetch cache key carries an extra `rss:`
prefix: it is `rss:fetch:<url>`, not `fetch:<url>` as the spec states. -/
theorem fetch_key_prefix_counterexample :
    fetchCacheKey "u" = "rss:fetch:u" ∧ ¬ fetchCacheKey "u" = "fetch:" ++ "u" := by
  constructor
  · rfl
  · decide

/-- C9 (amended): the cache keys consulted by the subsystems are
`rss:fetch:<url>` for feed fetches (not `fetch:<url>`),
`filter:<group>:<fingerprint>` for content-filter results,
`summary:<group>:<fingerprint>` for summaries, and
`llm:<provider>:<promptHash>` for LLM responses, with the fingerprint the
md5 of title concatenated with link. -/
theorem cache_key_namespaces (md5 : String → String)
    (url group provider prompt : String) (e : Entry) :
    fetchCacheKey url = "rss:fetch:" ++ url ∧
    filterCacheKey md5 group e = "filter:" ++ group ++ ":" ++ md5 (e.title ++ e.link) ∧
    summaryCacheKey md5 group e = "summary:" ++ group ++ ":" ++ md5 (e.title ++ e.link) ∧
    llmCacheKey md5 provider prompt = "llm:" ++ provider ++ ":" ++ md5 prompt :=
  ⟨rfl, rfl, rfl, rfl⟩

/-- C10: the entries ("ab", "c") and ("a", "bc") have distinct
(title, link) pairs but the same unseparated concatenation "abc", hence the
same `_get_entry_hash` fingerprint under any digest, the same `filter:` and
`summary:` cache keys, and the second entry is answered from the first
entry's cached filter verdict: filtering both from a cold cache issues only
one external call and returns the first entry's result for the second. -/
theorem entry_hash_collision :
    ((⟨"ab", "c", none⟩ : Entry).title, (⟨"ab", "c", none⟩ : Entry).link)
      ≠ ((⟨"a", "bc", none⟩ : Entry).title, (⟨"a", "bc", none⟩ : Entry).link) ∧
    entryHashInput ⟨"ab", "c", none⟩ = entryHashInput ⟨"a", "bc", none⟩ ∧
    (∀ (md5 : String → String) (group : String),
      filterCacheKey md5 group ⟨"ab", "c", none⟩
        = filterCacheKey md5 group ⟨"a", "bc", none⟩ ∧
      summaryCacheKey md5 group ⟨"ab", "c", none⟩
        = summaryCacheKey md5 group ⟨"a", "bc", none⟩) ∧
    (filterEntry demoEnv 0 ⟨[], [], []⟩ 0 ⟨"ab", "c", none⟩).2.2 = 1 ∧
    (filterEntry demoEnv 1 (filterEntry demoEnv 0 ⟨[], [], []⟩ 0 ⟨"ab", "c", none⟩).2.1
        (filterEntry demoEnv 0 ⟨[], [], []⟩ 0 ⟨"ab", "c", none⟩).2.2
        ⟨"a", "bc", none⟩).2.2 = 1 ∧
    (filterEntry demoEnv 1 (filterEntry demoEnv 0 ⟨[], [], []⟩ 0 ⟨"ab", "c", none⟩).2.1
        (filterEntry demoEnv 0 ⟨[], [], []⟩ 0 ⟨"ab", "c", none⟩).2.2
        ⟨"a", "bc", none⟩).1
      = (filterEntry demoEnv 0 ⟨[], [], []⟩ 0 ⟨"ab", "c", none⟩).1 := by
  refine ⟨by decide, rfl, fun md5 group => ⟨rfl, rfl⟩, by decide, by decide, by decide⟩

end AiRssFilter
